import Mathlib

/-!
Verification development for the monitor worker (`src/main.py`).

The worker consumes Pub/Sub messages describing monitoring requests
(crypto price or weather), fetches data from external providers,
evaluates an optional alert threshold, and posts a formatted message to
a Discord webhook.

Shallow embedding notes:
* Python floats are modelled as rationals (`ℚ`); the claims under study
  only involve exact comparisons (`>`, `<`, `==`) and zero-truthiness,
  which agree with the rational model on the inputs considered.
* JSON values decoded by `json.loads` are modelled by `JValue`.
* The HTTP layer (`requests.get`) is modelled by an oracle
  `String → HttpResult`: either the call raises (timeout / transport
  error) or yields a response with a status code and a body whose
  `.json()` parse may itself raise.
* Exceptions inside `callback`'s `try` block are modelled by
  `Except Unit`; the surrounding `except` clause is the `.error` branch
  of `callback`.
* Numeric-to-text rendering (Python's `f"{price:,.2f}"`, `str(x)`) is
  abstracted to `toString` of the rational; no claim depends on the
  digit rendering.
-/

/-- JSON values, the result of `json.loads` on a message payload. -/
inductive JValue where
  | null
  | bool (b : Bool)
  | num (q : ℚ)
  | str (s : String)
  | arr (l : List JValue)
  | obj (l : List (String × JValue))

/-- Python truthiness of a decoded JSON value (`if x:`). -/
def truthyJ : JValue → Bool
  | .null => false
  | .bool b => b
  | .num q => q != 0
  | .str s => s != ""
  | .arr l => !l.isEmpty
  | .obj l => !l.isEmpty

/-- Python truthiness of `dict.get`'s result: `None` is falsy. -/
def truthyOpt : Option JValue → Bool
  | none => false
  | some v => truthyJ v

/-- Python truthiness of an optional string (e.g. `os.environ.get`). -/
def truthyStrOpt : Option String → Bool
  | none => false
  | some s => s != ""

/-- First-match association-list lookup, modelling `dict` lookup on the
decoded JSON object (payloads under study have distinct keys). -/
def jLookup (l : List (String × JValue)) (k : String) : Option JValue :=
  match l with
  | [] => none
  | (k2, v) :: rest => if k2 == k then some v else jLookup rest k

/-- `v[k]` for a string key: succeeds only on a dict, anything else
raises (`TypeError`/`KeyError`), modelled as `none`. -/
def jIndexStr (v : JValue) (k : String) : Option JValue :=
  match v with
  | .obj l => jLookup l k
  | _ => none

/-- `v[n]` for a non-negative integer index: list indexing, plus
Python's string indexing; anything else raises, modelled as `none`. -/
def jIndexNat (v : JValue) (n : Nat) : Option JValue :=
  match v with
  | .arr l => l.get? n
  | .str s => (s.data.get? n).map (fun c => JValue.str (String.mk [c]))
  | _ => none

/-- Python `x == s` for a string literal `s` applied to `dict.get`'s
result: true exactly when the value is that string (comparison with a
non-string or `None` is `False`, never an error). -/
def pyEqStr (v : Option JValue) (s : String) : Bool :=
  match v with
  | some (.str t) => t == s
  | _ => false

/-- Rendering a value inside an f-string (`str(x)`).  Container
rendering and float digit rendering are abstracted; no claim depends on
them. -/
def pyStr : JValue → String
  | .null => "None"
  | .bool true => "True"
  | .bool false => "False"
  | .num q => toString q
  | .str s => s
  | .arr _ => "[...]"
  | .obj _ => "\x7b...\x7d"

/-- `str(x)` where `x` may be `None` (a missing payload field). -/
def pyStrOpt : Option JValue → String
  | none => "None"
  | some v => pyStr v

/-- Value of a digit string, modelling the digits of `float(...)`. -/
def digitsVal (l : List Char) : Nat :=
  l.foldl (fun a c => a * 10 + (c.toNat - 48)) 0

/-- Parse an unsigned decimal (`"12"`, `"12.5"`, `".5"`, `"5."`),
the core of Python's `float(str)`.  Exponent notation, `inf`/`nan`,
underscores and surrounding whitespace are abstracted away; no claim
exercises them. -/
def parseDecimalCore (cs : List Char) : Option ℚ :=
  let intPart := cs.takeWhile Char.isDigit
  let rest := cs.dropWhile Char.isDigit
  match rest with
  | [] => if intPart.isEmpty then none else some ((digitsVal intPart : ℚ))
  | c :: fracCs =>
    if c == '.' && fracCs.all Char.isDigit && !(intPart.isEmpty && fracCs.isEmpty) then
      some ((digitsVal intPart : ℚ) + (digitsVal fracCs : ℚ) / ((10 : ℚ) ^ fracCs.length))
    else none

/-- Python `float(str)` with an optional sign. -/
def parseDecimal (s : String) : Option ℚ :=
  match s.data with
  | [] => none
  | c :: rest =>
    if c == '-' then (parseDecimalCore rest).map (fun q => -q)
    else if c == '+' then parseDecimalCore rest
    else parseDecimalCore s.data

/-- Python `float(x)` on a decoded JSON value: numbers pass through,
booleans coerce to 0/1, numeric strings parse; `None`, lists and dicts
raise (`TypeError`), modelled as `none`. -/
def pyFloat : JValue → Option ℚ
  | .num q => some q
  | .bool b => some (if b then 1 else 0)
  | .str s => parseDecimal s
  | _ => none

/-- Outcome of one `requests.get`: the call raised (timeout or
transport error), or returned a response with a status code and a body
whose `.json()` parse may raise. -/
inductive HttpResult where
  | exn
  | resp (status : Nat) (body : Except Unit JValue)

/-- The Binance ticker URL built by `get_crypto_price` for a string
symbol (`f"{symbol.upper()}USDT"`). -/
def cryptoUrl (s : String) : String :=
  "https://api.binance.com/api/v3/ticker/price?symbol=" ++ s.toUpper ++ "USDT"

/-- `MonitorService.get_crypto_price` (src/main.py lines 9-25).
The whole body runs inside `try/except Exception: return None`, so
every failure mode — a non-string symbol (`.upper()` raises), a raised
request, a non-200 status, an unparsable body, a missing or non-numeric
`price` field — collapses to `none`. -/
def get_crypto_price (symbol : Option JValue) (http : String → HttpResult) : Option ℚ :=
  match symbol with
  | some (.str s) =>
    match http (cryptoUrl s) with
    | .exn => none
    | .resp status body =>
      if status == 200 then
        match body with
        | .error _ => none
        | .ok data =>
          match jIndexStr data "price" with
          | none => none
          | some pv => pyFloat pv
      else none
  | _ => none

/-- The wttr.in URL built by `get_weather` (`f"https://wttr.in/{location}?format=j1"`). -/
def weatherUrl (location : Option JValue) : String :=
  "https://wttr.in/" ++ pyStrOpt location ++ "?format=j1"

/-- Normalized weather result: the dict
`{"temp_C": ..., "desc": ..., "humidity": ...}` built by `get_weather`.
The fields keep the raw JSON values found in the provider's body. -/
structure Weather where
  temp_C : JValue
  desc : JValue
  humidity : JValue

/-- `MonitorService.get_weather` (src/main.py lines 27-44).  Extracts
`current_condition[0].{temp_C, weatherDesc[0].value, humidity}`; any
raise (request error, `.json()` failure, missing key/index) and any
non-200 status collapse to `none`. -/
def get_weather (location : Option JValue) (http : String → HttpResult) : Option Weather :=
  match http (weatherUrl location) with
  | .exn => none
  | .resp status body =>
    if status == 200 then
      match body with
      | .error _ => none
      | .ok data =>
        match jIndexStr data "current_condition" with
        | none => none
        | some cc =>
          match jIndexNat cc 0 with
          | none => none
          | some current =>
            match jIndexStr current "temp_C" with
            | none => none
            | some t =>
              match jIndexStr current "weatherDesc" with
              | none => none
              | some wd =>
                match jIndexNat wd 0 with
                | none => none
                | some wd0 =>
                  match jIndexStr wd0 "value" with
                  | none => none
                  | some d =>
                    match jIndexStr current "humidity" with
                    | none => none
                    | some h => some ⟨t, d, h⟩
    else none

/-- Abstraction of Python's `f"{price:,.2f}"`; the digit rendering is
not relevant to any claim. -/
def fmtMoney (p : ℚ) : String := toString p

/-- Base crypto status line (src/main.py line 75). -/
def cryptoBase (symbol : Option JValue) (p : ℚ) : String :=
  "💰 **Monitor Crypto**: O preço de **" ++ pyStrOpt symbol ++ "** é de **$" ++ fmtMoney p ++ "**."

/-- Above-threshold alert line (src/main.py line 80). -/
def aboveLine (tv : JValue) : String :=
  "\n📈 ALERTA: O preço está ACIMA de $" ++ pyStr tv ++ "!"

/-- Below-target informational line (src/main.py line 83). -/
def belowLine (tv : JValue) : String :=
  "\n📉 O preço está abaixo do alvo de $" ++ pyStr tv ++ "."

/-- Crypto retrieval-failure message (src/main.py line 89). -/
def cryptoFail (symbol : Option JValue) : String :=
  "⚠️ Não foi possível obter o preço para " ++ pyStrOpt symbol ++ "."

/-- Weather report message (src/main.py lines 97-98). -/
def weatherMsg (location : Option JValue) (w : Weather) : String :=
  "🌤️ **Monitor Tempo**: Em **" ++ pyStrOpt location ++ "** estão **" ++ pyStr w.temp_C
    ++ "°C**.\nCondição: " ++ pyStr w.desc ++ " (Humidade: " ++ pyStr w.humidity ++ "%)"

/-- Weather retrieval-failure message (src/main.py line 101). -/
def weatherFail (location : Option JValue) : String :=
  "⚠️ Não foi possível obter o tempo para " ++ pyStrOpt location ++ "."

/-- Python `x > y` / `x < y` between the fetched float price and the
raw `threshold` payload value: numbers compare directly, booleans
coerce to 0/1, anything else raises `TypeError` (propagating to the
handler's outer `except`). -/
def asPyNumber : JValue → Except Unit ℚ
  | .num q => .ok q
  | .bool b => .ok (if b then 1 else 0)
  | _ => .error ()

/-- The body of `callback`'s `try` block after decoding
(src/main.py lines 60-103): returns `(response_text, should_alert)`,
or `.error` when an exception is raised inside the block.

Inputs: the decode outcome of `json.loads(message.data)`, and the two
fetchers of the global `monitor` as oracles from the raw payload field
to their result. -/
def evalMessage (decoded : Except Unit JValue)
    (cf : Option JValue → Option ℚ) (wf : Option JValue → Option Weather) :
    Except Unit (String × Bool) :=
  match decoded with
  | .error _ => .error ()
  | .ok (.obj fields) =>
    let msg_type := jLookup fields "type"
    if pyEqStr msg_type "crypto" then
      let symbol := jLookup fields "symbol"
      let threshold := jLookup fields "threshold"
      let alert_enabled := jLookup fields "alert_enabled"
      match cf symbol with
      | some p =>
        if p == 0 then
          .ok (cryptoFail symbol, true)
        else
          let base := cryptoBase symbol p
          match threshold with
          | some tv =>
            if truthyOpt alert_enabled && truthyJ tv then
              match asPyNumber tv with
              | .error _ => .error ()
              | .ok t =>
                if p > t then .ok (base ++ aboveLine tv, true)
                else if p < t then .ok (base ++ belowLine tv, false)
                else .ok (base, true)
            else .ok (base, true)
          | none => .ok (base, true)
      | none => .ok (cryptoFail symbol, true)
    else if pyEqStr msg_type "weather" then
      let location := jLookup fields "location"
      match wf location with
      | some w => .ok (weatherMsg location w, true)
      | none => .ok (weatherFail location, true)
    else
      .ok ("", false)
  | .ok _ => .error ()

/-- Observable outcome of one `callback` run: the content sent to the
Discord webhook (if `send_to_discord` was called) and whether
`message.ack()` was reached. -/
structure CallbackResult where
  sent : Option String
  acked : Bool
deriving DecidableEq

/-- `callback` (src/main.py lines 55-115): decode, evaluate, send to
Discord when a webhook is configured (truthy) and `should_alert`, then
ack.  An exception anywhere inside the `try` block lands in the
`except` clause, which only logs: nothing is sent and — `message.ack()`
never having been reached, `message.nack()` being commented out — the
message is not acknowledged. -/
def callback (decoded : Except Unit JValue) (webhook : Option String)
    (cf : Option JValue → Option ℚ) (wf : Option JValue → Option Weather) :
    CallbackResult :=
  match evalMessage decoded cf wf with
  | .ok (txt, alert) =>
    ⟨if truthyStrOpt webhook && alert then some txt else none, true⟩
  | .error _ => ⟨none, false⟩

/-- Sequential processing of a batch of delivered messages with the
configuration and fetch oracles held fixed — the consumer loop's
`max_messages=1` flow control means messages are handled one at a
time, and no state in the worker is carried from one message to the
next. -/
def processBatch (msgs : List (Except Unit JValue)) (webhook : Option String)
    (cf : Option JValue → Option ℚ) (wf : Option JValue → Option Weather) :
    List CallbackResult :=
  msgs.map (fun m => callback m webhook cf wf)

/-- Payload `{"type": "crypto", "symbol": ..., "threshold": ..., "alert_enabled": ...}`. -/
def cryptoPayload (sv tv ev : JValue) : JValue :=
  .obj [("type", .str "crypto"), ("symbol", sv), ("threshold", tv), ("alert_enabled", ev)]

/-- Payload `{"type": "crypto", "symbol": ..., "alert_enabled": ...}` (no threshold key). -/
def cryptoPayloadNoThreshold (sv ev : JValue) : JValue :=
  .obj [("type", .str "crypto"), ("symbol", sv), ("alert_enabled", ev)]

/-- Payload `{"type": "crypto"}` (no symbol key). -/
def cryptoPayloadNoSymbol : JValue :=
  .obj [("type", .str "crypto")]

/-- Payload `{"type": "weather", "location": ...}`. -/
def weatherPayload (lv : JValue) : JValue :=
  .obj [("type", .str "weather"), ("location", lv)]

lemma evalMessage_cryptoPayload (sv tv ev : JValue)
    (cf : Option JValue → Option ℚ) (wf : Option JValue → Option Weather) :
    evalMessage (.ok (cryptoPayload sv tv ev)) cf wf =
      match cf (some sv) with
      | some p =>
        if p == 0 then .ok (cryptoFail (some sv), true)
        else
          if truthyJ ev && truthyJ tv then
            match asPyNumber tv with
            | .error _ => .error ()
            | .ok t =>
              if p > t then .ok (cryptoBase (some sv) p ++ aboveLine tv, true)
              else if p < t then .ok (cryptoBase (some sv) p ++ belowLine tv, false)
              else .ok (cryptoBase (some sv) p, true)
          else .ok (cryptoBase (some sv) p, true)
      | none => .ok (cryptoFail (some sv), true) := rfl

lemma evalMessage_cryptoPayloadNoThreshold (sv ev : JValue)
    (cf : Option JValue → Option ℚ) (wf : Option JValue → Option Weather) :
    evalMessage (.ok (cryptoPayloadNoThreshold sv ev)) cf wf =
      match cf (some sv) with
      | some p =>
        if p == 0 then .ok (cryptoFail (some sv), true)
        else .ok (cryptoBase (some sv) p, true)
      | none => .ok (cryptoFail (some sv), true) := rfl

lemma evalMessage_weatherPayload (lv : JValue)
    (cf : Option JValue → Option ℚ) (wf : Option JValue → Option Weather) :
    evalMessage (.ok (weatherPayload lv)) cf wf =
      match wf (some lv) with
      | some w => .ok (weatherMsg (some lv) w, true)
      | none => .ok (weatherFail (some lv), true) := rfl

/-- C1, as stated, is false on the code: for the crypto payload
`{"type":"crypto","symbol":"btc","threshold":50000,"alert_enabled":true}`
with a fetched price of 40000 (strictly below the threshold), the
handler appends the below-target line but `should_alert` is left
`False`, so the decision has notify = false and nothing is sent to the
webhook. -/
theorem C1_counterexample :
    evalMessage (.ok (cryptoPayload (.str "btc") (.num 50000) (.bool true)))
        (fun _ => some 40000) (fun _ => none)
      = .ok (cryptoBase (some (.str "btc")) 40000 ++ belowLine (.num 50000), false)
    ∧ callback (.ok (cryptoPayload (.str "btc") (.num 50000) (.bool true)))
        (some "https://discord.example/webhook") (fun _ => some 40000) (fun _ => none)
      = ⟨none, true⟩ :=
  ⟨rfl, rfl⟩

/-- C1 (amended): with `alert_enabled` truthy, a truthy numeric
`threshold`, and a truthy fetched price strictly below it, the handler
appends the below-target informational line, but the resulting Alert
Decision has notify = false (the `price < threshold` branch never sets
`should_alert`). -/
theorem C1_price_below_threshold (sv tv ev : JValue)
    (cf : Option JValue → Option ℚ) (wf : Option JValue → Option Weather) (p t : ℚ)
    (hen : truthyJ ev = true) (htv : truthyJ tv = true)
    (ht : asPyNumber tv = .ok t) (hcf : cf (some sv) = some p)
    (hp0 : p ≠ 0) (hlt : p < t) :
    evalMessage (.ok (cryptoPayload sv tv ev)) cf wf
      = .ok (cryptoBase (some sv) p ++ belowLine tv, false) := by
  have hngt : ¬ p > t := fun hgt => absurd hlt (lt_asymm hgt)
  rw [evalMessage_cryptoPayload, hcf]
  simp [hen, htv, ht, hlt, hngt, beq_iff_eq, hp0]

/-- Witness for C1's amended theorem at a concrete input. -/
theorem C1_price_below_threshold_witness :
    evalMessage (.ok (cryptoPayload (.str "eth") (.num 3000) (.bool true)))
        (fun _ => some 2500) (fun _ => none)
      = .ok (cryptoBase (some (.str "eth")) 2500 ++ belowLine (.num 3000), false) :=
  C1_price_below_threshold (.str "eth") (.num 3000) (.bool true)
    (fun _ => some 2500) (fun _ => none) 2500 3000
    rfl (by decide) rfl rfl (by norm_num) (by norm_num)

/-- C2, as stated, is false on the code: on a payload that fails to
decode, the `except` clause only logs — `message.ack()` is never
reached (and `nack` is commented out), so the message is NOT
acknowledged, contrary to the claim. Nothing is sent, as claimed. -/
theorem C2_counterexample :
    (callback (.error ()) (some "https://discord.example/webhook")
        (fun _ => none) (fun _ => none)).acked = false
    ∧ (callback (.error ()) (some "https://discord.example/webhook")
        (fun _ => none) (fun _ => none)).sent = none :=
  ⟨rfl, rfl⟩

/-- C2 (amended): whenever processing the message body raises (decode
failure included), the handler completes without the exception
escaping, sends no notification, and makes no acknowledgment call: the
outcome is `sent = none` and `acked = false`. -/
theorem C2_exception_swallowed_not_acked (d : Except Unit JValue) (w : Option String)
    (cf : Option JValue → Option ℚ) (wf : Option JValue → Option Weather)
    (h : ∃ e, evalMessage d cf wf = .error e) :
    callback d w cf wf = ⟨none, false⟩ := by
  obtain ⟨e, he⟩ := h
  simp [callback, he]

/-- Witness for C2's amended theorem: a payload that fails to decode. -/
theorem C2_exception_swallowed_not_acked_witness :
    (∃ e, evalMessage (Except.error ()) (fun _ => none) (fun _ => none) = .error e)
    ∧ callback (Except.error ()) (some "https://discord.example/webhook")
        (fun _ => none) (fun _ => none) = ⟨none, false⟩ :=
  ⟨⟨(), rfl⟩,
   C2_exception_swallowed_not_acked (Except.error ()) (some "https://discord.example/webhook")
     (fun _ => none) (fun _ => none) ⟨(), rfl⟩⟩

/-- C3: with a truthy fetched price, (a) if `alert_enabled` and
`threshold` are truthy and the price equals the threshold exactly,
notify is true and neither the above nor the below marker is appended
(the message is the base status line); (b) if `alert_enabled` is falsy,
notify is true with the base message; (c) if the `threshold` key is
absent, notify is true with the base message. -/
theorem C3_equality_and_unset_config (sv tv ev : JValue)
    (cf : Option JValue → Option ℚ) (wf : Option JValue → Option Weather) (p t : ℚ)
    (hcf : cf (some sv) = some p) (hp0 : p ≠ 0) :
    (truthyJ ev = true → truthyJ tv = true → asPyNumber tv = .ok t → p = t →
      evalMessage (.ok (cryptoPayload sv tv ev)) cf wf = .ok (cryptoBase (some sv) p, true))
    ∧ (truthyJ ev = false →
      evalMessage (.ok (cryptoPayload sv tv ev)) cf wf = .ok (cryptoBase (some sv) p, true))
    ∧ evalMessage (.ok (cryptoPayloadNoThreshold sv ev)) cf wf
        = .ok (cryptoBase (some sv) p, true) := by
  refine ⟨?_, ?_, ?_⟩
  · intro hen htv ht heq
    subst heq
    rw [evalMessage_cryptoPayload, hcf]
    simp [hen, htv, ht, beq_iff_eq, hp0, lt_irrefl]
  · intro hen
    rw [evalMessage_cryptoPayload, hcf]
    simp [hen, beq_iff_eq, hp0]
  · rw [evalMessage_cryptoPayloadNoThreshold, hcf]
    simp [beq_iff_eq, hp0]

/-- Witness for C3 at concrete inputs: price 50000 equal to the
threshold, and an `alert_enabled = false` configuration. -/
theorem C3_equality_and_unset_config_witness :
    evalMessage (.ok (cryptoPayload (.str "btc") (.num 50000) (.bool true)))
        (fun _ => some 50000) (fun _ => none)
      = .ok (cryptoBase (some (.str "btc")) 50000, true)
    ∧ evalMessage (.ok (cryptoPayload (.str "btc") (.num 50000) (.bool false)))
        (fun _ => some 50000) (fun _ => none)
      = .ok (cryptoBase (some (.str "btc")) 50000, true)
    ∧ evalMessage (.ok (cryptoPayloadNoThreshold (.str "btc") (.bool true)))
        (fun _ => some 50000) (fun _ => none)
      = .ok (cryptoBase (some (.str "btc")) 50000, true) :=
  ⟨(C3_equality_and_unset_config (.str "btc") (.num 50000) (.bool true)
      (fun _ => some 50000) (fun _ => none) 50000 50000 rfl (by norm_num)).1
      rfl (by decide) rfl rfl,
   (C3_equality_and_unset_config (.str "btc") (.num 50000) (.bool false)
      (fun _ => some 50000) (fun _ => none) 50000 50000 rfl (by norm_num)).2.1 rfl,
   (C3_equality_and_unset_config (.str "btc") (.num 50000) (.bool true)
      (fun _ => some 50000) (fun _ => none) 50000 50000 rfl (by norm_num)).2.2⟩

/-- C4: when the fetcher returns no result (`None`), both for crypto
and for weather requests, the Alert Decision has notify = true and the
message is the could-not-retrieve failure text. -/
theorem C4_unavailable_notifies_failure (sv tv ev lv : JValue)
    (cf : Option JValue → Option ℚ) (wf : Option JValue → Option Weather)
    (hc : cf (some sv) = none) (hw : wf (some lv) = none) :
    evalMessage (.ok (cryptoPayload sv tv ev)) cf wf = .ok (cryptoFail (some sv), true)
    ∧ evalMessage (.ok (weatherPayload lv)) cf wf = .ok (weatherFail (some lv), true) := by
  constructor
  · rw [evalMessage_cryptoPayload, hc]
  · rw [evalMessage_weatherPayload, hw]

/-- Witness for C4 at concrete inputs with always-unavailable fetchers. -/
theorem C4_unavailable_notifies_failure_witness :
    evalMessage (.ok (cryptoPayload (.str "btc") (.num 50000) (.bool true)))
        (fun _ => none) (fun _ => none)
      = .ok (cryptoFail (some (.str "btc")), true)
    ∧ evalMessage (.ok (weatherPayload (.str "lisbon")))
        (fun _ => none) (fun _ => none)
      = .ok (weatherFail (some (.str "lisbon")), true) :=
  C4_unavailable_notifies_failure (.str "btc") (.num 50000) (.bool true) (.str "lisbon")
    (fun _ => none) (fun _ => none) rfl rfl

/-- C5: each fetcher is a total function into an optional normalized
result (exceptions cannot propagate: every failure branch of the
source is a `none` of the embedding), and a raised request
(timeout/transport error), a non-success HTTP status, and a malformed
response body each yield `none` (Unavailable), for the crypto and the
weather fetcher alike. -/
theorem C5_fetchers_collapse_failures (s : String) (loc : Option JValue)
    (http : String → HttpResult) (status : Nat) (body : Except Unit JValue) :
    (http (cryptoUrl s) = .exn → get_crypto_price (some (.str s)) http = none)
    ∧ (http (cryptoUrl s) = .resp status body → status ≠ 200 →
        get_crypto_price (some (.str s)) http = none)
    ∧ (http (cryptoUrl s) = .resp 200 (.error ()) →
        get_crypto_price (some (.str s)) http = none)
    ∧ (http (weatherUrl loc) = .exn → get_weather loc http = none)
    ∧ (http (weatherUrl loc) = .resp status body → status ≠ 200 →
        get_weather loc http = none)
    ∧ (http (weatherUrl loc) = .resp 200 (.error ()) →
        get_weather loc http = none) := by
  refine ⟨?_, ?_, ?_, ?_, ?_, ?_⟩
  · intro h; simp [get_crypto_price, h]
  · intro h hne; simp [get_crypto_price, h, hne]
  · intro h; simp [get_crypto_price, h]
  · intro h; simp [get_weather, h]
  · intro h hne; simp [get_weather, h, hne]
  · intro h; simp [get_weather, h]

/-- Witness for C5: a transport error on the crypto side and a 500
status on the weather side both yield Unavailable. -/
theorem C5_fetchers_collapse_failures_witness :
    get_crypto_price (some (.str "btc")) (fun _ => .exn) = none
    ∧ get_weather (some (.str "lisbon")) (fun _ => .resp 500 (.ok .null)) = none :=
  ⟨(C5_fetchers_collapse_failures "btc" (some (.str "btc")) (fun _ => .exn)
      500 (.ok .null)).1 rfl,
   (C5_fetchers_collapse_failures "lisbon" (some (.str "lisbon"))
      (fun _ => .resp 500 (.ok .null)) 500 (.ok .null)).2.2.2.2.1 rfl (by decide)⟩

/-- C6: a well-formed JSON-object payload whose `type` field is absent
or not one of the known variants falls through both dispatch branches:
the message is acknowledged and no notification is sent, whatever the
webhook configuration and fetchers. -/
theorem C6_unknown_type_acked_silent (fields : List (String × JValue)) (w : Option String)
    (cf : Option JValue → Option ℚ) (wf : Option JValue → Option Weather)
    (h : ∀ tv, jLookup fields "type" = some tv →
      tv ≠ .str "crypto" ∧ tv ≠ .str "weather") :
    callback (.ok (.obj fields)) w cf wf = ⟨none, true⟩ := by
  have hc : pyEqStr (jLookup fields "type") "crypto" = false := by
    cases hv : jLookup fields "type" with
    | none => rfl
    | some tv =>
      cases tv with
      | str t =>
        have := (h _ hv).1
        simp [pyEqStr]
        intro heq
        exact this (by rw [heq])
      | _ => rfl
  have hw : pyEqStr (jLookup fields "type") "weather" = false := by
    cases hv : jLookup fields "type" with
    | none => rfl
    | some tv =>
      cases tv with
      | str t =>
        have := (h _ hv).2
        simp [pyEqStr]
        intro heq
        exact this (by rw [heq])
      | _ => rfl
  simp [callback, evalMessage, hc, hw]

/-- Witness for C6: the payload `{"type": "stock"}`. -/
theorem C6_unknown_type_acked_silent_witness :
    callback (.ok (.obj [("type", .str "stock")]))
      (some "https://discord.example/webhook") (fun _ => none) (fun _ => none)
      = ⟨none, true⟩ :=
  C6_unknown_type_acked_silent [("type", .str "stock")]
    (some "https://discord.example/webhook") (fun _ => none) (fun _ => none)
    (by
      intro tv hv
      have htv : tv = JValue.str "stock" := by
        simpa [jLookup] using hv.symm
      subst htv
      refine ⟨fun hc => ?_, fun hc => ?_⟩
      · injection hc with h1; exact absurd h1 (by decide)
      · injection hc with h1; exact absurd h1 (by decide))

/-- C7: processing the same delivered payload twice in a row, with the
webhook configuration and the fetch oracles held equal, yields the same
observable outcome both times — the handler carries no state from one
message to the next. -/
theorem C7_redelivery_idempotent (m : Except Unit JValue) (w : Option String)
    (cf : Option JValue → Option ℚ) (wf : Option JValue → Option Weather)
    (r1 r2 : CallbackResult)
    (h : processBatch [m, m] w cf wf = [r1, r2]) : r1 = r2 := by
  simp only [processBatch, List.map] at h
  injection h with h1 h2
  injection h2 with h2 _
  rw [← h1, ← h2]

/-- Witness for C7 on a concrete redelivered payload. -/
theorem C7_redelivery_idempotent_witness :
    (⟨some (cryptoBase (some (.str "btc")) 42000 ++ aboveLine (.num 40000)), true⟩
        : CallbackResult)
      = ⟨some (cryptoBase (some (.str "btc")) 42000 ++ aboveLine (.num 40000)), true⟩ :=
  C7_redelivery_idempotent
    (.ok (cryptoPayload (.str "btc") (.num 40000) (.bool true)))
    (some "https://discord.example/webhook")
    (fun _ => some 42000) (fun _ => none) _ _ rfl

/-- C8: a fetched price of exactly 0 is falsy under `if price:`, so the
handler behaves exactly as when no price is returned: the outcome
equals the no-price outcome, and the decision is the
could-not-retrieve failure message with notify = true. -/
theorem C8_zero_price_treated_unavailable (sv tv ev : JValue) (w : Option String)
    (wf : Option JValue → Option Weather) :
    callback (.ok (cryptoPayload sv tv ev)) w (fun _ => some 0) wf
      = callback (.ok (cryptoPayload sv tv ev)) w (fun _ => none) wf
    ∧ evalMessage (.ok (cryptoPayload sv tv ev)) (fun _ => some 0) wf
      = .ok (cryptoFail (some sv), true) := by
  have h0 : evalMessage (.ok (cryptoPayload sv tv ev)) (fun _ => some 0) wf
      = .ok (cryptoFail (some sv), true) := by
    rw [evalMessage_cryptoPayload]
    simp
  have hn : evalMessage (.ok (cryptoPayload sv tv ev)) (fun _ => none) wf
      = .ok (cryptoFail (some sv), true) := by
    rw [evalMessage_cryptoPayload]
  exact ⟨by simp [callback, h0, hn], h0⟩

/-- C9: with `alert_enabled` truthy but `threshold` equal to the JSON
number 0 (falsy in `if alert_enabled and threshold:`), the whole
comparison block is skipped: the decision is the base price message
with notify = true and no above/below marker. -/
theorem C9_zero_threshold_skips_comparison (sv ev : JValue)
    (cf : Option JValue → Option ℚ) (wf : Option JValue → Option Weather) (p : ℚ)
    (hcf : cf (some sv) = some p) (hp0 : p ≠ 0) (_hen : truthyJ ev = true) :
    evalMessage (.ok (cryptoPayload sv (.num 0) ev)) cf wf
      = .ok (cryptoBase (some sv) p, true) := by
  rw [evalMessage_cryptoPayload, hcf]
  simp [truthyJ, beq_iff_eq, hp0]

/-- Witness for C9: threshold 0, fetched price 42000. -/
theorem C9_zero_threshold_skips_comparison_witness :
    evalMessage (.ok (cryptoPayload (.str "btc") (.num 0) (.bool true)))
        (fun _ => some 42000) (fun _ => none)
      = .ok (cryptoBase (some (.str "btc")) 42000, true) :=
  C9_zero_threshold_skips_comparison (.str "btc") (.bool true)
    (fun _ => some 42000) (fun _ => none) 42000 rfl (by norm_num) rfl

/-- C10: a crypto payload with no `symbol` key does not crash the
handler: `get_crypto_price(None)` hits `.upper()` inside its own
`try/except` and returns `None`, so with a configured (truthy) webhook
the handler sends the retrieval-failure message — which renders the
missing symbol as `None` — and acknowledges the message. -/
theorem C10_missing_symbol_safe (http : String → HttpResult)
    (wf : Option JValue → Option Weather) (w : String) (hw : w ≠ "") :
    callback (.ok cryptoPayloadNoSymbol) (some w)
        (fun s => get_crypto_price s http) wf
      = ⟨some (cryptoFail none), true⟩
    ∧ cryptoFail none = "⚠️ Não foi possível obter o preço para None." := by
  constructor
  · simp [callback, evalMessage, cryptoPayloadNoSymbol, jLookup, pyEqStr,
      get_crypto_price, truthyStrOpt, hw]
  · rfl

/-- Witness for C10 with a concrete webhook address and an HTTP oracle
that would even succeed — the missing symbol alone forces the failure
path. -/
theorem C10_missing_symbol_safe_witness :
    callback (.ok cryptoPayloadNoSymbol) (some "https://discord.example/webhook")
        (fun s => get_crypto_price s
          (fun _ => .resp 200 (.ok (.obj [("price", .num 42000)])))) (fun _ => none)
      = ⟨some (cryptoFail none), true⟩ :=
  (C10_missing_symbol_safe
    (fun _ => .resp 200 (.ok (.obj [("price", .num 42000)])))
    (fun _ => none) "https://discord.example/webhook" (by decide)).1
